import Mathlib

/-!
A shallow embedding of the "ill/pill" interpreter (src/interpreter.rs and
src/opcodes.rs) in Lean 4, together with theorems checking the repository's
natural-language specification against the code.

Modelling conventions:
* Rust `f64` values are modelled as `ℤ`.  Every program considered here only
  manipulates small integer-valued quantities, on which `f64` arithmetic
  (comparison, addition, subtraction, `%`) is exact, so the embedding is
  faithful on the inputs the theorems use.
* Rust `Result`-errors are the `RunError.ill` constructor; Rust panics
  (`unwrap` on `None`, index out of bounds) are `RunError.panicked`;
  recursion is bounded by an explicit fuel parameter whose exhaustion is the
  artificial outcome `RunError.noFuel` (never hit on the concrete programs in
  the theorems below).
* Source positions (`ReadHead`) are carried by errors only for diagnostics in
  the Rust code; they are dropped here.
* `print!`/`println!` side effects are recorded in an event list.
-/

namespace Pill

abbrev Value := ℤ

/-- `const TRUE: f64 = 0f64;` (opcodes.rs line 8). -/
def TRUE : Value := 0

/-- `const FALSE: f64 = 1f64;` (opcodes.rs line 9). -/
def FALSE : Value := 1

/-- `struct Register` (interpreter.rs). -/
structure Register where
  identifier : String
  value : Value
  is_variable : Bool
deriving DecidableEq, Repr

/-- `enum ExpressionType` (opcodes.rs); `Either<f64, String>` is `Sum Value String`. -/
inductive ExpressionType where
  | integerLiteral (v : Value)
  | probableLiteral (e : Sum Value String)
  | stringLiteral (s : String)
  | containerReference (name : String)
  | registerReference (name : String)
  | variableReference (name : String)
  | instructionReference (name : String) (captures : List String)
deriving DecidableEq, Repr

/-- `enum IllError` (interpreter.rs), with `ReadHead`/file payloads used only
for diagnostics dropped. -/
inductive IllError where
  | registerRedefinition (name : String) (shadow : Option String)
  | noRegistersFound (filename : String)
  | unexpectedCharacter (ch : Char) (note : Option String)
  | instructionRedefinition (name : String)
  | unknownOpCode (name : String)
  | invalidOpCodeArguments (name : String)
  | opCodeArgumentMismatch (name : String) (expected got : Int)
  | noMainInstruction
  | opCodeInvalidArgument (got : String)
  | opCodeInvalidContainerReference
  | unescapedStringLiteralIsContainer (got : String)
  | nonExistentRegister (name : String)
  | nonExistentInstruction (name : String)
  | immutableRegister (name : String)
deriving DecidableEq, Repr

/-- Outcome tags beyond structured `IllError`s: Rust panics and fuel
exhaustion (an artifact of the bounded-recursion embedding). -/
inductive RunError where
  | ill (e : IllError)
  | panicked (msg : String)
  | noFuel
deriving DecidableEq, Repr

/-- Observable output: `print!`/`println!` of a register value (dis/dsl) or of
a string literal (pt/ptl).  The boolean records whether a newline followed. -/
inductive Event where
  | outVal (v : Value) (newline : Bool)
  | outStr (s : String) (newline : Bool)
deriving DecidableEq, Repr

/-- `struct OpCode` (opcodes.rs); `location` dropped (diagnostics only). -/
structure OpCode where
  name : String
  arguments : List ExpressionType
deriving DecidableEq, Repr

/-- `struct Instruction` (interpreter.rs). -/
structure Instruction where
  name : String
  codes : List OpCode
  scope : List Register
  arguments : List String
  is_main : Bool
deriving DecidableEq, Repr

/-- The implicit `res` variable seeded into every instruction scope
(`Instruction::new_default`). -/
def resRegister : Register := ⟨"res", 0, true⟩

/-- `Instruction::new_default()`: default fields plus a scope seeded with `res`. -/
def Instruction.new_default : Instruction := ⟨"", [], [resRegister], [], false⟩

/-- Mutable evaluator state: the global register table, the local scope the
current call chain shares, and the output events emitted so far. -/
structure EState where
  registers : List Register
  scope : List Register
  events : List Event
deriving DecidableEq, Repr

/-- Result of one evaluator step: a value (the `f64` returned by `c_execute`;
a dummy `0` elsewhere) or an error. -/
inductive RunResult where
  | ok (v : Value)
  | err (e : RunError)
deriving DecidableEq, Repr

/-- `iter().find(|x| x.identifier == name)` over a register list. -/
def findReg (l : List Register) (n : String) : Option Register :=
  l.find? (fun r => r.identifier == n)

/-- `OpCode::g_register_exists`. -/
def gRegisterExists (n : String) (registers : List Register) : Bool :=
  (findReg registers n).isSome

/-- `OpCode::l_register_exists`. -/
def lRegisterExists (n : String) (scope : List Register) : Bool :=
  (findReg scope n).isSome

/-- `iter_mut().find(..).unwrap().value = v` / `+=` etc.: update the first
register with the given identifier by `f`. -/
def updFirstReg (l : List Register) (n : String) (f : Value → Value) : List Register :=
  match l with
  | [] => []
  | r :: rs =>
      if r.identifier == n then { r with value := f r.value } :: rs
      else r :: updFirstReg rs n f

/-- `scope.remove(position(..))`: remove the first register with the name. -/
def removeFirstReg (l : List Register) (n : String) : List Register :=
  match l with
  | [] => []
  | r :: rs => if r.identifier == n then rs else r :: removeFirstReg rs n

/-- `OpCode::get_absolute_value` (opcodes.rs lines 124-140): a left value is
returned as-is; a right (deferred) name is looked up in the global registers
first, then in the local scope, and is `NonExistentRegister` otherwise. -/
def getAbsoluteValue (ei : Sum Value String) (registers scope : List Register) :
    Except IllError Value :=
  match ei with
  | .inl v => .ok v
  | .inr name =>
      match findReg registers name with
      | some r => .ok r.value
      | none =>
          match findReg scope name with
          | some r => .ok r.value
          | none => .error (.nonExistentRegister name)

/-- Rust `a % b` on `f64`: the remainder of division truncated toward zero
(exact on the integral inputs exercised here; `b = 0`, which yields NaN in
Rust, is never used). -/
def fmod (a b : Value) : Value := a.tmod b

/-- `instruction_exists` / finding an instruction by name. -/
def findInst (insts : List Instruction) (n : String) : Option Instruction :=
  insts.find? (fun i => i.name == n)

/-- ASCII lowercasing (`to_lowercase` / `eq_ignore_ascii_case` in the Rust
code), written over the character list so that it reduces in the kernel. -/
def strToLower (s : String) : String := String.mk (s.data.map Char.toLower)

/-- `OpCode::instruction_exists`. -/
def instructionExists (n : String) (insts : List Instruction) : Bool :=
  (findInst insts n).isSome

/-- The evaluator's call shapes: executing one opcode (`OpCode::execute`), a
code list (the loop in `Instruction::execute`/`c_execute`), a full
`c_execute` call, or the `while` loop of the `for` opcode (carrying the Rust
local `val`). -/
inductive Task where
  | opc (op : OpCode)
  | codes (cs : List OpCode)
  | call (inst : Instruction)
  | floop (varName : String) (fromV throughV stepV : Value) (body : Instruction)
      (val : Value)

/-- The recursive evaluator: a faithful rendering of `OpCode::execute`,
`Instruction::c_execute` and the loop of `Instruction::execute`, with fuel
bounding recursion depth.  State is threaded explicitly (Rust uses `&mut`), so
an error result still carries the mutations made before the error. -/
def run (insts : List Instruction) : Nat → Task → EState → RunResult × EState
  | 0, _, st => (.err .noFuel, st)
  | fuel + 1, t, st =>
    match t with
    | .codes [] => (.ok 0, st)
    | .codes (c :: cs) =>
        match run insts fuel (.opc c) st with
        | (.ok _, st') => run insts fuel (.codes cs) st'
        | e => e
    | .call inst =>
        match run insts fuel (.codes inst.codes) st with
        | (.ok _, st') =>
            match st'.scope.find? (fun r => strToLower r.identifier == "res") with
            | some r => (.ok r.value, st')
            | none => (.err (.panicked "res missing"), st')
        | e => e
    | .floop v fromV throughV stepV body val =>
        if (if val > throughV then val > throughV else val < throughV) then
          match run insts fuel (.call body) st with
          | (.ok _, st') =>
              match findReg st'.scope v with
              | some r =>
                  let nv := if fromV > throughV then r.value - stepV
                            else r.value + stepV
                  run insts fuel (.floop v fromV throughV stepV body nv)
                    { st' with scope := updFirstReg st'.scope v (fun _ => nv) }
              | none => (.err (.panicked "loop variable missing"), st')
          | e => e
        else (.ok 0, st)
    | .opc op =>
      match strToLower op.name, op.arguments with
      | "mak", [.stringLiteral id, .probableLiteral v] =>
          if gRegisterExists id st.registers then
            (.err (.ill (.registerRedefinition id (some "Register Reference"))), st)
          else if lRegisterExists id st.scope then
            (.err (.ill (.registerRedefinition id (some "Variable Reference"))), st)
          else if strToLower id == "res" then
            (.err (.ill (.registerRedefinition id (some ("default register " ++ id)))), st)
          else
            match getAbsoluteValue v st.registers st.scope with
            | .error e => (.err (.ill e), st)
            | .ok val => (.ok 0, { st with scope := st.scope ++ [⟨id, val, true⟩] })
      | "neg", [.containerReference name] =>
          if gRegisterExists name st.registers then
            (.ok 0, { st with registers := (updFirstReg st.registers name
                (fun w => if w = TRUE then FALSE else TRUE)) })
          else if lRegisterExists name st.scope then
            (.ok 0, { st with scope := (updFirstReg st.scope name
                (fun w => if w = TRUE then FALSE else TRUE)) })
          else (.err (.ill (.nonExistentRegister name)), st)
      | "add", [.probableLiteral v, .containerReference vr] =>
          match getAbsoluteValue v st.registers st.scope with
          | .error e => (.err (.ill e), st)
          | .ok res =>
              if lRegisterExists vr st.scope then
                (.ok 0, { st with scope := updFirstReg st.scope vr (fun w => w + res) })
              else if gRegisterExists vr st.registers then
                (.ok 0, { st with registers := (updFirstReg st.registers vr
                    (fun w => w + res)) })
              else (.err (.ill (.nonExistentRegister vr)), st)
      | "mov", [.probableLiteral vx, .containerReference id] =>
          match getAbsoluteValue vx st.registers st.scope with
          | .error e => (.err (.ill e), st)
          | .ok val =>
              if gRegisterExists id st.registers then
                (.ok 0, { st with registers := updFirstReg st.registers id (fun _ => val) })
              else if lRegisterExists id st.scope then
                (.ok 0, { st with scope := updFirstReg st.scope id (fun _ => val) })
              else (.err (.ill (.nonExistentRegister id)), st)
      | "dsl", [.containerReference id] =>
          match findReg st.registers id with
          | some r => (.ok 0, { st with events := st.events ++ [.outVal r.value true] })
          | none =>
              match findReg st.scope id with
              | some r => (.ok 0, { st with events := st.events ++ [.outVal r.value true] })
              | none => (.err (.ill (.nonExistentRegister id)), st)
      | "dis", [.containerReference id] =>
          match findReg st.registers id with
          | some r => (.ok 0, { st with events := st.events ++ [.outVal r.value false] })
          | none =>
              match findReg st.scope id with
              | some r => (.ok 0, { st with events := st.events ++ [.outVal r.value false] })
              | none => (.err (.ill (.nonExistentRegister id)), st)
      | "mod", [.probableLiteral a, .probableLiteral b, .stringLiteral id] =>
          match getAbsoluteValue a st.registers st.scope with
          | .error e => (.err (.ill e), st)
          | .ok av =>
              match getAbsoluteValue b st.registers st.scope with
              | .error e => (.err (.ill e), st)
              | .ok bv =>
                  if gRegisterExists id st.registers then
                    (.err (.ill (.registerRedefinition id (some "Register Reference"))), st)
                  else if lRegisterExists id st.scope then
                    (.err (.ill (.registerRedefinition id (some "Variable Reference"))), st)
                  else (.ok 0, { st with scope := st.scope ++ [⟨id, fmod av bv, true⟩] })
      | "eq", [.probableLiteral a, .probableLiteral b, .stringLiteral id] =>
          match getAbsoluteValue a st.registers st.scope with
          | .error e => (.err (.ill e), st)
          | .ok av =>
              match getAbsoluteValue b st.registers st.scope with
              | .error e => (.err (.ill e), st)
              | .ok bv =>
                  if gRegisterExists id st.registers then
                    (.err (.ill (.registerRedefinition id (some "Register Reference"))), st)
                  else if lRegisterExists id st.scope then
                    (.err (.ill (.registerRedefinition id (some "Variable Reference"))), st)
                  else (.ok 0, { st with scope := (st.scope ++
                    [⟨id, if av = bv then TRUE else FALSE, true⟩]) })
      | "lt", [.probableLiteral a, .probableLiteral b, .stringLiteral id] =>
          match getAbsoluteValue a st.registers st.scope with
          | .error e => (.err (.ill e), st)
          | .ok av =>
              match getAbsoluteValue b st.registers st.scope with
              | .error e => (.err (.ill e), st)
              | .ok bv =>
                  if gRegisterExists id st.registers then
                    (.err (.ill (.registerRedefinition id (some "Register Reference"))), st)
                  else if lRegisterExists id st.scope then
                    (.err (.ill (.registerRedefinition id (some "Variable Reference"))), st)
                  else (.ok 0, { st with scope := (st.scope ++
                    [⟨id, if av < bv then TRUE else FALSE, true⟩]) })
      | "gt", [.probableLiteral a, .probableLiteral b, .stringLiteral id] =>
          match getAbsoluteValue a st.registers st.scope with
          | .error e => (.err (.ill e), st)
          | .ok av =>
              match getAbsoluteValue b st.registers st.scope with
              | .error e => (.err (.ill e), st)
              | .ok bv =>
                  if gRegisterExists id st.registers then
                    (.err (.ill (.registerRedefinition id (some "Register Reference"))), st)
                  else if lRegisterExists id st.scope then
                    (.err (.ill (.registerRedefinition id (some "Variable Reference"))), st)
                  else (.ok 0, { st with scope := (st.scope ++
                    [⟨id, if av > bv then TRUE else FALSE, true⟩]) })
      | "gte", [.probableLiteral a, .probableLiteral b, .stringLiteral id] =>
          match getAbsoluteValue a st.registers st.scope with
          | .error e => (.err (.ill e), st)
          | .ok av =>
              match getAbsoluteValue b st.registers st.scope with
              | .error e => (.err (.ill e), st)
              | .ok bv =>
                  if gRegisterExists id st.registers then
                    (.err (.ill (.registerRedefinition id (some "Register Reference"))), st)
                  else if lRegisterExists id st.scope then
                    (.err (.ill (.registerRedefinition id (some "Variable Reference"))), st)
                  else (.ok 0, { st with scope := (st.scope ++
                    [⟨id, if av ≥ bv then TRUE else FALSE, true⟩]) })
      | "lte", [.probableLiteral a, .probableLiteral b, .stringLiteral id] =>
          match getAbsoluteValue a st.registers st.scope with
          | .error e => (.err (.ill e), st)
          | .ok av =>
              match getAbsoluteValue b st.registers st.scope with
              | .error e => (.err (.ill e), st)
              | .ok bv =>
                  if gRegisterExists id st.registers then
                    (.err (.ill (.registerRedefinition id (some "Register Reference"))), st)
                  else if lRegisterExists id st.scope then
                    (.err (.ill (.registerRedefinition id (some "Variable Reference"))), st)
                  else (.ok 0, { st with scope := (st.scope ++
                    [⟨id, if av ≤ bv then TRUE else FALSE, true⟩]) })
      | "del", [.variableReference name] =>
          if lRegisterExists name st.scope then
            (.ok 0, { st with scope := removeFirstReg st.scope name })
          else (.err (.ill (.nonExistentRegister name)), st)
      | "pt", [.stringLiteral s] =>
          (.ok 0, { st with events := st.events ++ [.outStr s false] })
      | "ptl", [.stringLiteral s] =>
          (.ok 0, { st with events := st.events ++ [.outStr s true] })
      | "for", [.stringLiteral vn, .integerLiteral fromV, .integerLiteral throughV,
                .integerLiteral stepV, .instructionReference inst _] =>
          if gRegisterExists vn st.registers then
            (.err (.ill (.registerRedefinition vn (some "Register Reference"))), st)
          else if lRegisterExists vn st.scope then
            (.err (.ill (.registerRedefinition vn (some "Variable Reference"))), st)
          else if !(instructionExists inst insts) then
            (.err (.ill (.nonExistentInstruction inst)), st)
          else
            let start := fromV - 1
            let st1 := { st with scope := st.scope ++ [⟨vn, start, true⟩] }
            match findInst insts inst with
            | none => (.err (.panicked "unwrap on None"), st1)
            | some body =>
                match run insts fuel (.floop vn fromV throughV stepV body start) st1 with
                | (.ok _, st2) =>
                    if lRegisterExists vn st2.scope then
                      (.ok 0, { st2 with scope := removeFirstReg st2.scope vn })
                    else (.err (.panicked "unwrap on None"), st2)
                | e => e
      | "if", [.instructionReference c _, .instructionReference a _,
               .instructionReference b _] =>
          if !(instructionExists c insts) then
            (.err (.ill (.nonExistentInstruction c)), st)
          else
            match findInst insts c with
            | none => (.err (.panicked "unwrap on None"), st)
            | some ci =>
                match run insts fuel (.call ci) st with
                | (.err e, st') => (.err e, st')
                | (.ok unr, st') =>
                    if !(instructionExists a insts) then
                      (.err (.ill (.nonExistentInstruction a)), st')
                    else if !(instructionExists b insts) then
                      (.err (.ill (.nonExistentInstruction b)), st')
                    else
                      match findInst insts (if unr = TRUE then a else b) with
                      | none => (.err (.panicked "unwrap on None"), st')
                      | some ti =>
                          match run insts fuel (.call ti) st' with
                          | (.ok _, st2) => (.ok 0, st2)
                          | e => e
      | "do", [.instructionReference inst _] =>
          if instructionExists inst insts then
            match findInst insts inst with
            | none => (.err (.panicked "unwrap on None"), st)
            | some i =>
                match run insts fuel (.call i) st with
                | (.ok _, st') => (.ok 0, st')
                | (.err (.ill _), st') =>
                    -- `.ok().unwrap()` in the "do" arm: a structured error from
                    -- the sub-instruction is discarded and the unwrap panics.
                    (.err (.panicked "called Option::unwrap on a None value"), st')
                | (.err e, st') => (.err e, st')
          else (.err (.ill (.nonExistentInstruction inst)), st)
      | "dor", [.instructionReference inst _, .stringLiteral id] =>
          if gRegisterExists id st.registers then
            (.err (.ill (.registerRedefinition id (some "Register Reference"))), st)
          else if lRegisterExists id st.scope then
            (.err (.ill (.registerRedefinition id (some "Variable Reference"))), st)
          else if instructionExists inst insts then
            match findInst insts inst with
            | none => (.err (.panicked "unwrap on None"), st)
            | some i =>
                match run insts fuel (.call i) st with
                | (.ok v, st') =>
                    (.ok 0, { st' with scope := st'.scope ++ [⟨id, v, true⟩] })
                | e => e
          else (.err (.ill (.nonExistentInstruction inst)), st)
      | _, _ => (.ok 0, st)

/-! ## Scanner and validator (interpreter.rs)

The Rust scanner walks a `Peekable<Chars>`; here the stream is a `List Char`.
`take_while` in Rust consumes the first failing character as well, which
`takeWhileCons` reproduces.  `ReadHead` position arithmetic feeds only error
diagnostics and is omitted.  Loops that consume a statically unknown number of
characters take fuel (ample fuel is supplied at every concrete use).
-/

/-- Rust `take_while(p)`: the collected prefix satisfying `p`, and the rest of
the stream after additionally consuming the first failing character. -/
def takeWhileCons (p : Char → Bool) : List Char → List Char × List Char
  | [] => ([], [])
  | c :: cs =>
      if p c then
        let r := takeWhileCons p cs
        (c :: r.1, r.2)
      else ([], cs)

/-- `read_until`: consume until a stop character (consumed, not returned),
returning the content with all whitespace characters filtered out. -/
def readUntil (it : List Char) (stop : List Char) : String × List Char :=
  let r := takeWhileCons (fun c => !(stop.contains c)) it
  (String.mk (r.1.filter (fun c => !c.isWhitespace)), r.2)

/-- `read_until_spare_ws`: same as `readUntil` but whitespace is preserved. -/
def readUntilSpareWs (it : List Char) (stop : List Char) : String × List Char :=
  let r := takeWhileCons (fun c => !(stop.contains c)) it
  (String.mk r.1, r.2)

/-- `any_exists_until`, always called on a cloned cursor: does any character of
`ex` occur before (exclusive) the first character of `stop`? -/
def anyExistsUntil (it : List Char) (ex stop : List Char) : Bool :=
  let r := takeWhileCons (fun c => !(stop.contains c)) it
  (r.1.filter (fun c => !c.isWhitespace)).any (fun c => ex.contains c)

/-- Rust `str::trim` over the character list. -/
def trimChars (l : List Char) : List Char :=
  ((l.dropWhile Char.isWhitespace).reverse.dropWhile Char.isWhitespace).reverse

/-- Rust `split(" ")` (exact single-space separator, empty pieces kept). -/
def splitOnSpace (l : List Char) : List String :=
  match l with
  | [] => [""]
  | c :: cs =>
      let r := splitOnSpace cs
      if c == ' ' then "" :: r
      else
        match r with
        | [] => [String.mk [c]]
        | s :: ss => String.mk (c :: s.data) :: ss

/-- Closing-quote search for the lazy patterns of the `('.*?'|".*?"|\S+)`
tokenizer regex: the shortest prefix before an occurrence of `q`, failing if a
newline (which `.` does not match) comes first. -/
def splitAtChar (q : Char) : List Char → Option (List Char × List Char)
  | [] => none
  | c :: cs =>
      if c == q then some ([], cs)
      else if c == '\n' then none
      else
        match splitAtChar q cs with
        | some (pre, post) => some (c :: pre, post)
        | none => none

/-- The quote-aware statement tokenizer of `parse_code`: the PCRE pattern
`('.*?'|".*?"|\S+)` applied globally, returning each whole match (quotes
included). -/
def tokenize (fuel : Nat) (it : List Char) : List String :=
  match fuel, it with
  | 0, _ => []
  | _ + 1, [] => []
  | fuel + 1, c :: cs =>
      if c == '\x27' || c == '"' then
        match splitAtChar c cs with
        | some (pre, post) => String.mk (c :: pre ++ [c]) :: tokenize fuel post
        | none =>
            let r := (c :: cs).span (fun x => !x.isWhitespace)
            String.mk r.1 :: tokenize fuel r.2
      else if c.isWhitespace then tokenize fuel cs
      else
        let r := (c :: cs).span (fun x => !x.isWhitespace)
        String.mk r.1 :: tokenize fuel r.2

/-- Accumulated decimal digits as a natural number. -/
def digitsVal (l : List Char) : ℕ :=
  l.foldl (fun a c => a * 10 + (c.toNat - 48)) 0

/-- `arg.parse::<f64>()`, for the decimal forms the language exercises:
optional sign, digits, optional fractional part.  Fractional parts must be
zero to stay within the integral value model (no claim uses a non-integral
literal); exponent/`inf`/`NaN` forms are likewise outside this embedding. -/
def parseF64 (s : String) : Option Value :=
  let p : (List Char → Option Value) := fun cs =>
    let ip := cs.span Char.isDigit
    match ip.2 with
    | [] => if ip.1.isEmpty then none else some (digitsVal ip.1 : ℤ)
    | '.' :: fr =>
        let fp := fr.span Char.isDigit
        if !fp.2.isEmpty then none
        else if ip.1.isEmpty && fp.1.isEmpty then none
        else if digitsVal fp.1 != 0 then none
        else some (digitsVal ip.1 : ℤ)
    | _ => none
  match s.data with
  | '-' :: cs => (p cs).map (fun v => -v)
  | '+' :: cs => p cs
  | cs => p cs

/-! ## Opcode catalog (opcodes.rs) -/

/-- `literal()`. -/
def literal : ExpressionType := .integerLiteral 0

/-- `prob_literal()`. -/
def prob_literal : ExpressionType := .probableLiteral (.inl FALSE)

/-- `container()`. -/
def container : ExpressionType := .containerReference ""

/-- `register()`. -/
def register : ExpressionType := .registerReference ""

/-- `variable()` (named `variableExp` because `variable` is a Lean keyword). -/
def variableExp : ExpressionType := .variableReference ""

/-- `s_literal()`. -/
def s_literal : ExpressionType := .stringLiteral ""

/-- `inst_ref()`. -/
def inst_ref : ExpressionType := .instructionReference "" []

/-- `default_opcodes()` (opcodes.rs lines 65-87). -/
def default_opcodes : List OpCode :=
  [ ⟨"mov", [prob_literal, container]⟩,
    ⟨"mod", [prob_literal, prob_literal, s_literal]⟩,
    ⟨"gt", [prob_literal, prob_literal, s_literal]⟩,
    ⟨"lt", [prob_literal, prob_literal, s_literal]⟩,
    ⟨"eq", [prob_literal, prob_literal, s_literal]⟩,
    ⟨"gte", [prob_literal, prob_literal, s_literal]⟩,
    ⟨"lte", [prob_literal, prob_literal, s_literal]⟩,
    ⟨"add", [prob_literal, container]⟩,
    ⟨"mak", [s_literal, prob_literal]⟩,
    ⟨"dis", [container]⟩,
    ⟨"dsl", [container]⟩,
    ⟨"do", [inst_ref]⟩,
    ⟨"dor", [inst_ref, s_literal]⟩,
    ⟨"del", [variableExp]⟩,
    ⟨"pt", [s_literal]⟩,
    ⟨"ptl", [s_literal]⟩,
    ⟨"neg", [container]⟩,
    ⟨"for", [s_literal, literal, literal, literal, inst_ref]⟩,
    ⟨"if", [inst_ref, inst_ref, inst_ref]⟩ ]

/-- `Interpreter::find_opcode` over the fixed catalog. -/
def findOpcode (name : String) : Option OpCode :=
  default_opcodes.find? (fun o => o.name == name)

/-- `is_container` inside `parse_code`: a global register or a variable of the
instruction being parsed. -/
def isContainer (registers iscope : List Register) (n : String) : Bool :=
  gRegisterExists n registers || lRegisterExists n iscope

/-- `strip_quotes` / `sanitize`: `str.replace("\"", "")`. -/
def stripQuotes (s : String) : String :=
  String.mk (s.data.filter (fun c => c != '"'))

/-- The per-argument validation loop of `parse_code` (interpreter.rs lines
543-603): convert each raw token against the expected operand kind. -/
def validateArgs (registers iscope : List Register) (insts : List Instruction) :
    List ExpressionType → List String → Except RunError (List ExpressionType)
  | [], _ => .ok []
  | exp :: exps, args =>
      match args with
      | [] => .ok []
      | arg :: rest =>
          let step : Except RunError ExpressionType :=
            match exp with
            | .probableLiteral _ =>
                match parseF64 arg with
                | some v => .ok (.probableLiteral (.inl v))
                | none => .ok (.probableLiteral (.inr arg))
            | .integerLiteral _ =>
                match parseF64 arg with
                | some v => .ok (.integerLiteral v)
                | none => .error (.panicked "parse unwrap")
            | .stringLiteral _ =>
                if isContainer registers iscope arg then
                  .error (.ill (.unescapedStringLiteralIsContainer arg))
                else if arg.data.any (fun c => c.isDigit) then
                  .error (.ill (.opCodeInvalidArgument arg))
                else .ok (.stringLiteral (stripQuotes arg))
            | .containerReference _ => .ok (.containerReference arg)
            | .registerReference _ => .ok (.registerReference arg)
            | .variableReference _ => .ok (.variableReference arg)
            | .instructionReference _ _ =>
                match findInst insts arg with
                | some z => .ok (.instructionReference arg z.arguments)
                | none => .error (.ill (.nonExistentInstruction arg))
          match step with
          | .error e => .error e
          | .ok a =>
              match validateArgs registers iscope insts exps rest with
              | .error e => .error e
              | .ok as => .ok (a :: as)

/-- `Interpreter::parse_code` (interpreter.rs lines 495-609): tokenize a raw
statement, look the mnemonic up in the catalog, check arity, and validate each
argument.  `inst` is the instruction currently being parsed (its seeded scope
feeds the container check); `insts` are the instructions parsed so far. -/
def parse_code (registers : List Register) (inst : Instruction)
    (insts : List Instruction) (code : String) : Except RunError OpCode :=
  match tokenize (code.data.length + 1) code.data with
  | [] => .error (.panicked "index out of bounds")
  | code_name :: args =>
      match findOpcode code_name with
      | none => .error (.ill (.unknownOpCode code_name))
      | some opcode =>
          if args.length != opcode.arguments.length then
            .error (.ill (.opCodeArgumentMismatch code_name
              (opcode.arguments.length : Int) (args.length : Int)))
          else
            match validateArgs registers inst.scope insts opcode.arguments args with
            | .error e => .error e
            | .ok act => .ok ⟨code_name, act⟩

/-! ## Interpreter phases (interpreter.rs) -/

/-- `struct Interpreter`, restricted to the fields the core phases read and
write.  `files`/`preamble` are `(filename, content)` pairs (`EnhancedFile`
without the OS handle); the event list records the output of the executed main
instruction. -/
structure Interp where
  files : List (String × String)
  preamble : List (String × String)
  registers : List Register
  instructions : List Instruction
  events : List Event
deriving DecidableEq, Repr

/-- The inner `while` of `create_registers`: read `;`-terminated register
names until a newline (or the end of the stream) is next. -/
def createRegInner : Nat → List Register → List Char →
    Option RunError × List Register × List Char
  | 0, regs, it => (some .noFuel, regs, it)
  | fuel + 1, regs, it =>
      match it.head? with
      | some c =>
          if c != '\n' then
            let r := readUntil it [';']
            if (findReg regs r.1).isSome then
              (some (.ill (.registerRedefinition r.1 none)), regs, r.2)
            else createRegInner fuel (regs ++ [⟨r.1, 0, false⟩]) r.2
          else (none, regs, it)
      | none => (none, regs, it)

/-- The per-file character loop of `create_registers`: on a non-whitespace
`+`, read the register names of that line; the boolean records whether any
`+` was seen in this file. -/
def createRegFile : Nat → List Register → List Char → Bool →
    Option RunError × List Register × Bool
  | 0, regs, _, found => (some .noFuel, regs, found)
  | fuel + 1, regs, it, found =>
      match it with
      | [] => (none, regs, found)
      | x :: rest =>
          if !x.isWhitespace && x == '+' then
            match createRegInner fuel regs rest with
            | (some e, regs1, _) => (some e, regs1, true)
            | (none, regs1, it1) => createRegFile fuel regs1 it1 true
          else createRegFile fuel regs rest found

/-- `Interpreter::create_registers` (interpreter.rs lines 750-789) over the
list of main source files: register declarations accumulate across files, and
a file in which no `+` sigil was found fails with `NoRegistersFound`. -/
def createRegistersGo (fuel : Nat) :
    List (String × String) → List Register → Option RunError × List Register
  | [], regs => (none, regs)
  | (fn, content) :: rest, regs =>
      match createRegFile fuel regs content.data false with
      | (some e, regs1, _) => (some e, regs1)
      | (none, regs1, found) =>
          if !found then (some (.ill (.noRegistersFound fn)), regs1)
          else createRegistersGo fuel rest regs1

/-- `create_registers`, threading the interpreter state. -/
def createRegisters (fuel : Nat) (ip : Interp) : Option RunError × Interp :=
  match createRegistersGo fuel ip.files ip.registers with
  | (r, regs) => (r, { ip with registers := regs })

/-- The statement loop of `scan_instructions`: while the next character is not
`}` and a `;` occurs before the `}`, read one raw statement up to `;`, parse
it with `parse_code` and append it to the instruction under construction. -/
def codesLoop (registers : List Register) (insts : List Instruction) :
    Nat → List Char → Instruction → Except RunError (Instruction × List Char)
  | 0, _, _ => .error .noFuel
  | fuel + 1, it, cur =>
      match it.head? with
      | some c =>
          if c != '\x7d' then
            if !(anyExistsUntil it [';'] ['\x7d']) then .ok (cur, it)
            else
              let r := readUntilSpareWs it [';']
              let code := String.mk (trimChars r.1.data)
              match parse_code registers cur insts code with
              | .error e => .error e
              | .ok opc => codesLoop registers insts fuel r.2
                  { cur with codes := cur.codes ++ [opc] }
          else .ok (cur, it)
      | none => .ok (cur, it)

/-- `InstSwitchBox`. -/
structure InstSwitchBox where
  is_reading_definition : Bool
  is_reading_arguments : Bool
  is_reading_codes : Bool
deriving DecidableEq, Repr

/-- The per-file character loop of `scan_instructions` (interpreter.rs lines
616-717): skip comments, and on the `$` sigil read one instruction definition
(name, parameter list, `{`-delimited statement block), parse its statements
and append it to the accumulated instruction list.  Returns the possibly
partially extended instruction list even on error (Rust mutates `self`), plus
the `master_file` filename when a doubled sigil was seen. -/
def scanFileLoop (registers : List Register) (filename : String) :
    Nat → List Char → List Instruction → Option String → Instruction →
    InstSwitchBox → Option RunError × List Instruction × Option String
  | 0, _, insts, master, _, _ => (some .noFuel, insts, master)
  | fuel + 1, it, insts, master, cur, sb =>
      match it with
      | [] => (none, insts, master)
      | x :: rest =>
          if x == '>' then
            scanFileLoop registers filename fuel (readUntilSpareWs rest ['\n']).2
              insts master cur sb
          else if x == '$' then
            if sb.is_reading_definition then
              (some (.ill (.unexpectedCharacter x
                (some ", expecting instruction identifier."))), insts, master)
            else
              match rest.head? with
              | none => (some (.panicked "peek unwrap"), insts, master)
              | some pk =>
                  let isMain := pk == '$'
                  let master1 := if isMain then some filename else master
                  let r1 := readUntil rest ['(']
                  let r2 := readUntilSpareWs r1.2 [')']
                  let params := splitOnSpace r2.1.data
                  if !(anyExistsUntil r2.2 ['\x7b'] ['\x7d']) then
                    (match r2.2.head? with
                     | none => (some (.panicked "peek unwrap"), insts, master1)
                     | some c => (some (.ill (.unexpectedCharacter c
                         (some ", expecting instruction code beginning."))),
                        insts, master1))
                  else
                    let it3 := (readUntilSpareWs r2.2 ['\x7b']).2
                    let cur1 : Instruction :=
                      { cur with name := r1.1, arguments := params, is_main := isMain }
                    match codesLoop registers insts fuel it3 cur1 with
                    | .error e => (some e, insts, master1)
                    | .ok (inst1, it4) =>
                        if instructionExists inst1.name insts then
                          (some (.ill (.instructionRedefinition inst1.name)),
                           insts, master1)
                        else
                          scanFileLoop registers filename fuel it4
                            (insts ++ [inst1]) master1 Instruction.new_default
                            ⟨false, false, false⟩
          else scanFileLoop registers filename fuel rest insts master cur sb

/-- The file loop of `scan_instructions`: scan each source file in turn,
threading the accumulated instruction list and the `master_file` marker. -/
def scanFiles (registers : List Register) (fuel : Nat) :
    List (String × String) → List Instruction → Option String →
    Option RunError × List Instruction × Option String
  | [], insts, master => (none, insts, master)
  | (fn, content) :: rest, insts, master =>
      match scanFileLoop registers fn fuel content.data insts master
          Instruction.new_default ⟨false, false, false⟩ with
      | (some e, insts1, m1) => (some e, insts1, m1)
      | (none, insts1, m1) => scanFiles registers fuel rest insts1 m1

/-- `self.instructions[0].is_main = true`. -/
def setMainHead : List Instruction → List Instruction
  | [] => []
  | i :: r => { i with is_main := true } :: r

/-- Write the executed main instruction's final scope back into the
instruction list (Rust mutates the found `&mut Instruction` in place). -/
def writebackMain (sc : List Register) : List Instruction → List Instruction
  | [] => []
  | i :: r => if i.is_main then { i with scope := sc } :: r
              else i :: writebackMain sc r

/-- `Interpreter::scan_instructions` (interpreter.rs lines 611-748): scan the
preamble or main files, then apply the end-of-scan rules — zero instructions
fail with `NoMainInstruction` (the access `self.files[0]` panicking first when
the file list is empty); exactly one instruction is marked main (again
touching `self.files[0]`); and, for the main (non-preamble) call only, the
main instruction is executed. -/
def scanInstructionsPhase (fuel : Nat) (preamble : Bool) (ip : Interp) :
    Option RunError × Interp :=
  let src := if preamble then ip.preamble else ip.files
  match scanFiles ip.registers fuel src ip.instructions none with
  | (some e, insts1, _) => (some e, { ip with instructions := insts1 })
  | (none, insts1, master) =>
      if insts1.length == 0 then
        match ip.files.head? with
        | none => (some (.panicked "index out of bounds"),
            { ip with instructions := insts1 })
        | some _ => (some (.ill .noMainInstruction), { ip with instructions := insts1 })
      else
        let marked := if insts1.length == 1 then setMainHead insts1 else insts1
        let master1 := if insts1.length == 1 then
            (match ip.files.head? with
             | none => none
             | some f => some f.1)
          else master
        if insts1.length == 1 && ip.files.head?.isNone then
          -- `master_file = Some(self.files[0].unsafe_clone())` panics, after
          -- `is_main` was already set.
          (some (.panicked "index out of bounds"), { ip with instructions := marked })
        else if preamble then (none, { ip with instructions := marked })
        else
          match marked.find? (fun i => i.is_main) with
          | none => (some (.panicked "unwrap on None"), { ip with instructions := marked })
          | some mainInst =>
              match master1 with
              | none => (some (.panicked "unwrap on None"), { ip with instructions := marked })
              | some _ =>
                  match run marked fuel (.codes mainInst.codes)
                      ⟨ip.registers, mainInst.scope, ip.events⟩ with
                  | (.ok _, st) =>
                      (none, { ip with instructions := writebackMain st.scope marked, registers := st.registers, events := st.events })
                  | (.err e, st) =>
                      (some e, { ip with instructions := writebackMain st.scope marked, registers := st.registers, events := st.events })

/-- `Interpreter::begin_parsing` (interpreter.rs lines 791-828): preamble
instruction scan (whose structured-error result is discarded — but a panic in
it aborts the program), then `create_registers`, then the main scan/execute
phase, returning the first surviving error. -/
def beginParsing (fuel : Nat) (ip : Interp) : Option RunError × Interp :=
  match scanInstructionsPhase fuel true ip with
  | (some (.ill _), ip1) | (none, ip1) =>
      (match createRegisters fuel ip1 with
       | (some e, ip2) => (some e, ip2)
       | (none, ip2) => scanInstructionsPhase fuel false ip2)
  | (some e, ip1) => (some e, ip1)

/-- Modelled from the spec: the resolution order the specification asserts for
"value"/ContainerReference operands — "local scope first, then global
registers; absence in both ⇒ NonExistentRegister".  Stated for comparison
with `getAbsoluteValue`, which is translated from the code. -/
def localFirstResolve (ei : Sum Value String) (registers scope : List Register) :
    Except IllError Value :=
  match ei with
  | .inl v => .ok v
  | .inr name =>
      match findReg scope name with
      | some r => .ok r.value
      | none =>
          match findReg registers name with
          | some r => .ok r.value
          | none => .error (.nonExistentRegister name)

/-! ## Theorems checking the specification's claims -/

/-- Claim C1 (counterexample).  The claim: `for "i" 1 3 1 body;` invokes
`body` three times with `i` taking the values 1, 2, 3 in order, and
`for "i" 3 1 1 body;` counts down through 3, 2, 1.  In the code the loop
counter starts at `from - 1` and the loop stops as soon as the advanced
counter equals `through`, so with a body that prints `i` the upward loop
prints 0, 1, 2 — not 1, 2, 3 — and the downward loop runs exactly once,
printing 2 — not three times through 3, 2, 1. -/
theorem C1_counterexample :
    (run [⟨"body", [⟨"dis", [.containerReference "i"]⟩], [resRegister], [], false⟩] 40
        (.opc ⟨"for", [.stringLiteral "i", .integerLiteral 1, .integerLiteral 3,
          .integerLiteral 1, .instructionReference "body" []]⟩)
        ⟨[], [resRegister], []⟩) =
      (.ok 0, ⟨[], [resRegister],
        [.outVal 0 false, .outVal 1 false, .outVal 2 false]⟩) ∧
    [Event.outVal 0 false, .outVal 1 false, .outVal 2 false] ≠
      [Event.outVal 1 false, .outVal 2 false, .outVal 3 false] ∧
    (run [⟨"body", [⟨"dis", [.containerReference "i"]⟩], [resRegister], [], false⟩] 40
        (.opc ⟨"for", [.stringLiteral "i", .integerLiteral 3, .integerLiteral 1,
          .integerLiteral 1, .instructionReference "body" []]⟩)
        ⟨[], [resRegister], []⟩) =
      (.ok 0, ⟨[], [resRegister], [.outVal 2 false]⟩) ∧
    ([Event.outVal 2 false]).length ≠ 3 := by
  refine ⟨by decide, by decide, by decide, by decide⟩

/-- Claim C1 (amended).  Executing `for "i" 1 3 1 body;` with a body that
prints the loop variable invokes the body exactly three times with `i` taking
the values 0, 1, 2 in order (the counter is initialized to `from - 1`), and
removes `i` from the local scope after the loop; `for "i" 3 1 1 body;`
invokes the body exactly once with `i = 2`, then removes `i`. -/
theorem C1_amended :
    (run [⟨"body", [⟨"dis", [.containerReference "i"]⟩], [resRegister], [], false⟩] 40
        (.opc ⟨"for", [.stringLiteral "i", .integerLiteral 1, .integerLiteral 3,
          .integerLiteral 1, .instructionReference "body" []]⟩)
        ⟨[], [resRegister], []⟩) =
      (.ok 0, ⟨[], [resRegister],
        [.outVal 0 false, .outVal 1 false, .outVal 2 false]⟩) ∧
    [Event.outVal 0 false, .outVal 1 false, .outVal 2 false].length = 3 ∧
    (run [⟨"body", [⟨"dis", [.containerReference "i"]⟩], [resRegister], [], false⟩] 40
        (.opc ⟨"for", [.stringLiteral "i", .integerLiteral 3, .integerLiteral 1,
          .integerLiteral 1, .instructionReference "body" []]⟩)
        ⟨[], [resRegister], []⟩) =
      (.ok 0, ⟨[], [resRegister], [.outVal 2 false]⟩) ∧
    lRegisterExists "i" [resRegister] = false := by
  refine ⟨by decide, by decide, by decide, by decide⟩

/-- Claim C2 (counterexample).  The claim: every "value"/ContainerReference
operand is resolved local scope first, global registers second.
`get_absolute_value` (and the mov/neg/dis/dsl destinations) check the GLOBAL
registers first: with a global register `res` (value 5) and the seeded local
variable `res` (value 0) — a state reachable by declaring `+res;` — the
deferred operand `res` resolves to the global value 5, while the spec's
local-first order would give 0; `mov res x;` accordingly writes 5 into `x`,
and the ContainerReference operand of `dis res;` likewise prints the global
value 5, not the local-first 0. -/
theorem C2_counterexample :
    getAbsoluteValue (.inr "res") [⟨"res", 5, false⟩] [⟨"res", 0, true⟩] = .ok 5 ∧
    localFirstResolve (.inr "res") [⟨"res", 5, false⟩] [⟨"res", 0, true⟩] = .ok 0 ∧
    (Except.ok (5 : Value) : Except IllError Value) ≠ .ok 0 ∧
    (run [] 5 (.opc ⟨"mov", [.probableLiteral (.inr "res"), .containerReference "x"]⟩)
        ⟨[⟨"res", 5, false⟩, ⟨"x", 7, false⟩], [⟨"res", 0, true⟩], []⟩) =
      (.ok 0, ⟨[⟨"res", 5, false⟩, ⟨"x", 5, false⟩], [⟨"res", 0, true⟩], []⟩) ∧
    (run [] 5 (.opc ⟨"dis", [.containerReference "res"]⟩)
        ⟨[⟨"res", 5, false⟩], [⟨"res", 0, true⟩], []⟩) =
      (.ok 0, ⟨[⟨"res", 5, false⟩], [⟨"res", 0, true⟩], [.outVal 5 false]⟩) ∧
    Event.outVal 5 false ≠ .outVal 0 false := by
  refine ⟨rfl, rfl, by simp, by decide, by decide, by decide⟩

/-- Claim C2 (amended).  At execution time a deferred ("value") operand is
resolved by searching the global registers first and the local scope second —
an order that coincides with the claimed local-first precedence whenever the
name is not simultaneously a global register and a local variable — and a
name absent from both fails with `NonExistentRegister`; when the name is a
global register, the global value wins.  The last five conjuncts settle the
ContainerReference operands on a state where `res` is both a global register
and a local variable: `mov`'s destination writes the global, `neg` flips the
global, `dis`/`dsl` print the global value — all global-first — while `add`'s
destination alone is searched local-first and accumulates into the local. -/
theorem C2_amended :
    ∀ (n : String) (registers scope : List Register),
      (gRegisterExists n registers = false →
        getAbsoluteValue (.inr n) registers scope =
          localFirstResolve (.inr n) registers scope) ∧
      (gRegisterExists n registers = false → lRegisterExists n scope = false →
        getAbsoluteValue (.inr n) registers scope = .error (.nonExistentRegister n)) ∧
      (∀ r, findReg registers n = some r →
        getAbsoluteValue (.inr n) registers scope = .ok r.value) ∧
      (run [] 5 (.opc ⟨"mov", [.probableLiteral (.inl 3), .containerReference "res"]⟩)
          ⟨[⟨"res", 5, false⟩], [⟨"res", 0, true⟩], []⟩) =
        (.ok 0, ⟨[⟨"res", 3, false⟩], [⟨"res", 0, true⟩], []⟩) ∧
      (run [] 5 (.opc ⟨"neg", [.containerReference "res"]⟩)
          ⟨[⟨"res", 0, false⟩], [⟨"res", 7, true⟩], []⟩) =
        (.ok 0, ⟨[⟨"res", 1, false⟩], [⟨"res", 7, true⟩], []⟩) ∧
      (run [] 5 (.opc ⟨"dis", [.containerReference "res"]⟩)
          ⟨[⟨"res", 5, false⟩], [⟨"res", 0, true⟩], []⟩) =
        (.ok 0, ⟨[⟨"res", 5, false⟩], [⟨"res", 0, true⟩], [.outVal 5 false]⟩) ∧
      (run [] 5 (.opc ⟨"dsl", [.containerReference "res"]⟩)
          ⟨[⟨"res", 5, false⟩], [⟨"res", 0, true⟩], []⟩) =
        (.ok 0, ⟨[⟨"res", 5, false⟩], [⟨"res", 0, true⟩], [.outVal 5 true]⟩) ∧
      (run [] 5 (.opc ⟨"add", [.probableLiteral (.inl 2), .containerReference "res"]⟩)
          ⟨[⟨"res", 5, false⟩], [⟨"res", 0, true⟩], []⟩) =
        (.ok 0, ⟨[⟨"res", 5, false⟩], [⟨"res", 2, true⟩], []⟩) := by
  intro n registers scope
  refine ⟨?_, ?_, ?_, by decide, by decide, by decide, by decide, by decide⟩
  · intro h
    have hn : findReg registers n = none := by
      cases h' : findReg registers n with
      | none => rfl
      | some r => simp [gRegisterExists, h'] at h
    simp only [getAbsoluteValue, localFirstResolve, hn]
  · intro h hl
    have hn : findReg registers n = none := by
      cases h' : findReg registers n with
      | none => rfl
      | some r => simp [gRegisterExists, h'] at h
    have hs : findReg scope n = none := by
      cases h' : findReg scope n with
      | none => rfl
      | some r => simp [lRegisterExists, h'] at hl
    simp only [getAbsoluteValue, hn, hs]
  · intro r hr
    simp only [getAbsoluteValue, hr]

/-- Claim C2: witness for the amended theorem, discharging its hypotheses at
concrete register tables. -/
theorem C2_amended_witness :
    getAbsoluteValue (.inr "a") [] [⟨"a", 3, true⟩] =
      localFirstResolve (.inr "a") [] [⟨"a", 3, true⟩] ∧
    getAbsoluteValue (.inr "b") [] [] = .error (.nonExistentRegister "b") ∧
    getAbsoluteValue (.inr "g") [⟨"g", 9, false⟩] [] = .ok (9 : Value) := by
  refine ⟨(C2_amended "a" [] [⟨"a", 3, true⟩]).1 (by decide),
          (C2_amended "b" [] []).2.1 (by decide) (by decide),
          (C2_amended "g" [⟨"g", 9, false⟩] []).2.2.1 ⟨"g", 9, false⟩ (by decide)⟩

/-- Claim C3 (code bug).  The claim (and the spec's propagation policy): every
error from any phase is returned unchanged up the call stack and aborts the
run.  Two places in the code violate this: (1) the `do` opcode arm invokes the
sub-instruction with `.ok().unwrap()`, so a structured error from the
sub-instruction (here the `NonExistentRegister` the sub-call itself produces)
is discarded and the process panics instead; (2) `begin_parsing` drops the
`Result` of the preamble instruction scan entirely, so a preamble scan error
(here `UnknownOpCode "zzz"`) is swallowed and the run continues to a
successful end. -/
theorem C3_code_bug :
    (run [⟨"sub", [⟨"mov", [.probableLiteral (.inl 1), .containerReference "nosuch"]⟩],
        [resRegister], [], false⟩] 20
      (.call ⟨"sub", [⟨"mov", [.probableLiteral (.inl 1), .containerReference "nosuch"]⟩],
        [resRegister], [], false⟩) ⟨[], [resRegister], []⟩) =
      (.err (.ill (.nonExistentRegister "nosuch")), ⟨[], [resRegister], []⟩) ∧
    (run [⟨"sub", [⟨"mov", [.probableLiteral (.inl 1), .containerReference "nosuch"]⟩],
        [resRegister], [], false⟩] 20
      (.opc ⟨"do", [.instructionReference "sub" []]⟩) ⟨[], [resRegister], []⟩) =
      (.err (.panicked "called Option::unwrap on a None value"), ⟨[], [resRegister], []⟩) ∧
    (scanInstructionsPhase 300 true
        ⟨[("m", "+r;\n$g()\x7b \x7d")], [("p", "$f()\x7b zzz 1; \x7d")], [], [], []⟩).1 =
      some (.ill (.unknownOpCode "zzz")) ∧
    (beginParsing 300
        ⟨[("m", "+r;\n$g()\x7b \x7d")], [("p", "$f()\x7b zzz 1; \x7d")], [], [], []⟩).1 =
      none := by
  refine ⟨by decide, by decide, by decide, by decide⟩

/-- Claim C4 (counterexample).  The claim: register-table construction runs
strictly before any instruction scanning, so no instruction scanning occurs
before a `NoRegistersFound` failure.  But `begin_parsing` runs the preamble
instruction scan BEFORE `create_registers`: with a preamble file defining
instruction `f` and a main file with no register declarations, the run fails
with `NoRegistersFound` while the instruction `f` has already been scanned
(it is present in the interpreter state at the failure). -/
theorem C4_counterexample :
    (beginParsing 300 ⟨[("m", "no registers here")], [("p", "$f()\x7b \x7d")],
        [], [], []⟩).1 = some (.ill (.noRegistersFound "m")) ∧
    ((beginParsing 300 ⟨[("m", "no registers here")], [("p", "$f()\x7b \x7d")],
        [], [], []⟩).2.instructions.map (fun i => i.name)) = ["f"] := by
  refine ⟨by decide, by decide⟩

/-- Claim C4 (amended).  A main source file containing zero register
declarations makes `begin_parsing` fail with `NoRegistersFound`, and register
construction runs strictly before the scanning of the MAIN files' instructions
(a main-only program fails with its instructions still unscanned) — but
strictly after the preamble instruction scan (with a preamble file, the
preamble's instruction is already scanned at the failure). -/
theorem C4_amended :
    (beginParsing 300 ⟨[("m", "$g()\x7b \x7d")], [], [], [], []⟩).1 =
      some (.ill (.noRegistersFound "m")) ∧
    (beginParsing 300 ⟨[("m", "$g()\x7b \x7d")], [], [], [], []⟩).2.instructions = [] ∧
    (beginParsing 300 ⟨[("m2", "nothing")], [("p2", "$h()\x7b \x7d")], [], [], []⟩).1 =
      some (.ill (.noRegistersFound "m2")) ∧
    ((beginParsing 300 ⟨[("m2", "nothing")], [("p2", "$h()\x7b \x7d")],
        [], [], []⟩).2.instructions.map (fun i => i.name)) = ["h"] := by
  refine ⟨by decide, by decide, by decide, by decide⟩

/-- Claim C5 (counterexample).  The claim: with zero instruction definitions —
including an empty filtered input file list — `begin_parsing` fails with
`NoMainInstruction`.  With an empty file list the error construction evaluates
`self.files[0]`, which panics (index out of bounds) instead. -/
theorem C5_counterexample :
    (beginParsing 300 ⟨[], [], [], [], []⟩).1 = some (.panicked "index out of bounds") ∧
    (beginParsing 300 ⟨[], [], [], [], []⟩).1 ≠ some (.ill .noMainInstruction) := by
  refine ⟨by decide, by decide⟩

/-- Claim C5 (amended).  If exactly one instruction definition parses across
all files, that instruction is marked main regardless of sigil doubling (with
a doubled sigil the scanned name additionally keeps the second `$`); if zero
instruction definitions parse and the input file list is nonempty,
`begin_parsing` fails with `NoMainInstruction`; with an empty input file list
it panics (index out of bounds on `files[0]`) instead. -/
theorem C5_amended :
    (beginParsing 300 ⟨[("m", "+r;\n$f()\x7b \x7d")], [], [], [], []⟩).1 = none ∧
    ((beginParsing 300 ⟨[("m", "+r;\n$f()\x7b \x7d")], [], [], [],
        []⟩).2.instructions.map (fun i => (i.name, i.is_main))) = [("f", true)] ∧
    ((beginParsing 300 ⟨[("m", "+r;\n$$f()\x7b \x7d")], [], [], [],
        []⟩).2.instructions.map (fun i => (i.name, i.is_main))) = [("$f", true)] ∧
    (beginParsing 300 ⟨[("m", "+r;")], [], [], [], []⟩).1 =
      some (.ill .noMainInstruction) ∧
    (beginParsing 300 ⟨[], [], [], [], []⟩).1 =
      some (.panicked "index out of bounds") := by
  refine ⟨by decide, by decide, by decide, by decide, by decide⟩

/-- Claim C6 (confirmed).  Each of gt, lt, eq, gte, lte, mod always creates a
new local variable named by its third argument, holding the TRUE sentinel
exactly when the relation holds (FALSE otherwise) or the modulo result; in
particular `gt 5 3 "r"` binds TRUE and `gt 3 5 "r"` binds FALSE.  If the name
already exists as a global register ("g") or a local variable ("res"), the
opcode fails with `RegisterRedefinition` and the whole state — registers,
scope and output — is left unchanged. -/
theorem C6_comparisons (a b : Value) :
    (run [] 5 (.opc ⟨"gt", [.probableLiteral (.inl a), .probableLiteral (.inl b),
        .stringLiteral "r"]⟩) ⟨[⟨"g", 9, false⟩], [resRegister], []⟩) =
      (.ok 0, ⟨[⟨"g", 9, false⟩],
        [resRegister, ⟨"r", if a > b then TRUE else FALSE, true⟩], []⟩) ∧
    (run [] 5 (.opc ⟨"lt", [.probableLiteral (.inl a), .probableLiteral (.inl b),
        .stringLiteral "r"]⟩) ⟨[⟨"g", 9, false⟩], [resRegister], []⟩) =
      (.ok 0, ⟨[⟨"g", 9, false⟩],
        [resRegister, ⟨"r", if a < b then TRUE else FALSE, true⟩], []⟩) ∧
    (run [] 5 (.opc ⟨"eq", [.probableLiteral (.inl a), .probableLiteral (.inl b),
        .stringLiteral "r"]⟩) ⟨[⟨"g", 9, false⟩], [resRegister], []⟩) =
      (.ok 0, ⟨[⟨"g", 9, false⟩],
        [resRegister, ⟨"r", if a = b then TRUE else FALSE, true⟩], []⟩) ∧
    (run [] 5 (.opc ⟨"gte", [.probableLiteral (.inl a), .probableLiteral (.inl b),
        .stringLiteral "r"]⟩) ⟨[⟨"g", 9, false⟩], [resRegister], []⟩) =
      (.ok 0, ⟨[⟨"g", 9, false⟩],
        [resRegister, ⟨"r", if a ≥ b then TRUE else FALSE, true⟩], []⟩) ∧
    (run [] 5 (.opc ⟨"lte", [.probableLiteral (.inl a), .probableLiteral (.inl b),
        .stringLiteral "r"]⟩) ⟨[⟨"g", 9, false⟩], [resRegister], []⟩) =
      (.ok 0, ⟨[⟨"g", 9, false⟩],
        [resRegister, ⟨"r", if a ≤ b then TRUE else FALSE, true⟩], []⟩) ∧
    (run [] 5 (.opc ⟨"mod", [.probableLiteral (.inl a), .probableLiteral (.inl b),
        .stringLiteral "r"]⟩) ⟨[⟨"g", 9, false⟩], [resRegister], []⟩) =
      (.ok 0, ⟨[⟨"g", 9, false⟩], [resRegister, ⟨"r", fmod a b, true⟩], []⟩) ∧
    (run [] 5 (.opc ⟨"gt", [.probableLiteral (.inl a), .probableLiteral (.inl b),
        .stringLiteral "g"]⟩) ⟨[⟨"g", 9, false⟩], [resRegister], []⟩) =
      (.err (.ill (.registerRedefinition "g" (some "Register Reference"))),
        ⟨[⟨"g", 9, false⟩], [resRegister], []⟩) ∧
    (run [] 5 (.opc ⟨"lt", [.probableLiteral (.inl a), .probableLiteral (.inl b),
        .stringLiteral "g"]⟩) ⟨[⟨"g", 9, false⟩], [resRegister], []⟩) =
      (.err (.ill (.registerRedefinition "g" (some "Register Reference"))),
        ⟨[⟨"g", 9, false⟩], [resRegister], []⟩) ∧
    (run [] 5 (.opc ⟨"eq", [.probableLiteral (.inl a), .probableLiteral (.inl b),
        .stringLiteral "g"]⟩) ⟨[⟨"g", 9, false⟩], [resRegister], []⟩) =
      (.err (.ill (.registerRedefinition "g" (some "Register Reference"))),
        ⟨[⟨"g", 9, false⟩], [resRegister], []⟩) ∧
    (run [] 5 (.opc ⟨"gte", [.probableLiteral (.inl a), .probableLiteral (.inl b),
        .stringLiteral "g"]⟩) ⟨[⟨"g", 9, false⟩], [resRegister], []⟩) =
      (.err (.ill (.registerRedefinition "g" (some "Register Reference"))),
        ⟨[⟨"g", 9, false⟩], [resRegister], []⟩) ∧
    (run [] 5 (.opc ⟨"lte", [.probableLiteral (.inl a), .probableLiteral (.inl b),
        .stringLiteral "g"]⟩) ⟨[⟨"g", 9, false⟩], [resRegister], []⟩) =
      (.err (.ill (.registerRedefinition "g" (some "Register Reference"))),
        ⟨[⟨"g", 9, false⟩], [resRegister], []⟩) ∧
    (run [] 5 (.opc ⟨"mod", [.probableLiteral (.inl a), .probableLiteral (.inl b),
        .stringLiteral "g"]⟩) ⟨[⟨"g", 9, false⟩], [resRegister], []⟩) =
      (.err (.ill (.registerRedefinition "g" (some "Register Reference"))),
        ⟨[⟨"g", 9, false⟩], [resRegister], []⟩) ∧
    (run [] 5 (.opc ⟨"gt", [.probableLiteral (.inl a), .probableLiteral (.inl b),
        .stringLiteral "res"]⟩) ⟨[⟨"g", 9, false⟩], [resRegister], []⟩) =
      (.err (.ill (.registerRedefinition "res" (some "Variable Reference"))),
        ⟨[⟨"g", 9, false⟩], [resRegister], []⟩) ∧
    (run [] 5 (.opc ⟨"gt", [.probableLiteral (.inl 5), .probableLiteral (.inl 3),
        .stringLiteral "r"]⟩) ⟨[⟨"g", 9, false⟩], [resRegister], []⟩) =
      (.ok 0, ⟨[⟨"g", 9, false⟩], [resRegister, ⟨"r", TRUE, true⟩], []⟩) ∧
    (run [] 5 (.opc ⟨"gt", [.probableLiteral (.inl 3), .probableLiteral (.inl 5),
        .stringLiteral "r"]⟩) ⟨[⟨"g", 9, false⟩], [resRegister], []⟩) =
      (.ok 0, ⟨[⟨"g", 9, false⟩], [resRegister, ⟨"r", FALSE, true⟩], []⟩) := by
  refine ⟨rfl, rfl, rfl, rfl, rfl, rfl, rfl, rfl, rfl, rfl, rfl, rfl, rfl,
    by decide, by decide⟩

/-- One-step unfolding of the `if` opcode arm of the evaluator (proved by
definitional reduction); used to settle claim C7. -/
theorem run_if_unfold (fuel : Nat) (insts : List Instruction) (st : EState)
    (c a b : String) (ca aa ba : List String) :
    run insts (fuel + 1) (.opc ⟨"if", [.instructionReference c ca,
        .instructionReference a aa, .instructionReference b ba]⟩) st =
      (if !(instructionExists c insts) then
        (.err (.ill (.nonExistentInstruction c)), st)
       else
        match findInst insts c with
        | none => (.err (.panicked "unwrap on None"), st)
        | some ci =>
            match run insts fuel (.call ci) st with
            | (.err e, st1) => (.err e, st1)
            | (.ok unr, st1) =>
                if !(instructionExists a insts) then
                  (.err (.ill (.nonExistentInstruction a)), st1)
                else if !(instructionExists b insts) then
                  (.err (.ill (.nonExistentInstruction b)), st1)
                else
                  match findInst insts (if unr = TRUE then a else b) with
                  | none => (.err (.panicked "unwrap on None"), st1)
                  | some ti =>
                      match run insts fuel (.call ti) st1 with
                      | (.ok _, st2) => (.ok 0, st2)
                      | e => e) := rfl

/-- Claim C7 (confirmed).  For every `if(condInstr, thenInstr, elseInstr)`
whose three referenced instructions exist and whose condition instruction
executes without error (final `res` value `v`), the `if` opcode behaves
exactly as executing ONE of the two branches — `thenInstr` when `v` equals
the TRUE sentinel, `elseInstr` otherwise — on the state the condition left
behind: never both branches, never zero. -/
theorem C7_if_exactly_one_branch (fuel : Nat) (insts : List Instruction)
    (st st1 : EState) (v : Value) (c a b : String) (ci ai bi : Instruction)
    (ca aa ba : List String)
    (hc : findInst insts c = some ci) (ha : findInst insts a = some ai)
    (hb : findInst insts b = some bi)
    (hcond : run insts fuel (.call ci) st = (.ok v, st1)) :
    run insts (fuel + 1) (.opc ⟨"if", [.instructionReference c ca,
        .instructionReference a aa, .instructionReference b ba]⟩) st =
      (match run insts fuel (.call (if v = TRUE then ai else bi)) st1 with
       | (.ok _, st2) => (.ok 0, st2)
       | e => e) := by
  have hce : instructionExists c insts = true := by
    simp [instructionExists, hc]
  have hae : instructionExists a insts = true := by
    simp [instructionExists, ha]
  have hbe : instructionExists b insts = true := by
    simp [instructionExists, hb]
  rw [run_if_unfold, hce, hc]
  simp only [Bool.not_true, Bool.false_eq_true, if_false, hcond, hae, hbe]
  by_cases hv : v = TRUE
  · simp [hv, ha]
  · simp [hv, hb]

/-- Claim C7: witness for the branch theorem at a concrete program — a
condition instruction with an empty body (so `res` stays at the TRUE
sentinel 0), and branches printing "T"/"F". -/
theorem C7_if_exactly_one_branch_witness :
    run [⟨"c", [], [resRegister], [], false⟩,
         ⟨"a", [⟨"pt", [.stringLiteral "T"]⟩], [resRegister], [], false⟩,
         ⟨"b", [⟨"pt", [.stringLiteral "F"]⟩], [resRegister], [], false⟩] 7
      (.opc ⟨"if", [.instructionReference "c" [], .instructionReference "a" [],
        .instructionReference "b" []]⟩) ⟨[], [resRegister], []⟩ =
      (match run [⟨"c", [], [resRegister], [], false⟩,
          ⟨"a", [⟨"pt", [.stringLiteral "T"]⟩], [resRegister], [], false⟩,
          ⟨"b", [⟨"pt", [.stringLiteral "F"]⟩], [resRegister], [], false⟩] 6
        (.call (if (0 : Value) = TRUE
          then ⟨"a", [⟨"pt", [.stringLiteral "T"]⟩], [resRegister], [], false⟩
          else ⟨"b", [⟨"pt", [.stringLiteral "F"]⟩], [resRegister], [], false⟩))
        ⟨[], [resRegister], []⟩ with
       | (.ok _, st2) => (.ok 0, st2)
       | e => e) :=
  C7_if_exactly_one_branch 6
    [⟨"c", [], [resRegister], [], false⟩,
     ⟨"a", [⟨"pt", [.stringLiteral "T"]⟩], [resRegister], [], false⟩,
     ⟨"b", [⟨"pt", [.stringLiteral "F"]⟩], [resRegister], [], false⟩]
    ⟨[], [resRegister], []⟩ ⟨[], [resRegister], []⟩ 0 "c" "a" "b"
    ⟨"c", [], [resRegister], [], false⟩
    ⟨"a", [⟨"pt", [.stringLiteral "T"]⟩], [resRegister], [], false⟩
    ⟨"b", [⟨"pt", [.stringLiteral "F"]⟩], [resRegister], [], false⟩
    [] [] [] rfl rfl rfl rfl

/-- One-step unfolding of the argument-validation loop of `parse_code`
(proved by definitional reduction); used to settle claim C8. -/
theorem validateArgs_cons (registers iscope : List Register) (insts : List Instruction)
    (exp : ExpressionType) (exps : List ExpressionType) (arg : String)
    (args : List String) :
    validateArgs registers iscope insts (exp :: exps) (arg :: args) =
      (match (match exp with
              | .probableLiteral _ =>
                  match parseF64 arg with
                  | some v => .ok (.probableLiteral (.inl v))
                  | none => .ok (.probableLiteral (.inr arg))
              | .integerLiteral _ =>
                  match parseF64 arg with
                  | some v => .ok (.integerLiteral v)
                  | none => .error (.panicked "parse unwrap")
              | .stringLiteral _ =>
                  if isContainer registers iscope arg then
                    .error (.ill (.unescapedStringLiteralIsContainer arg))
                  else if arg.data.any (fun c => c.isDigit) then
                    .error (.ill (.opCodeInvalidArgument arg))
                  else .ok (.stringLiteral (stripQuotes arg))
              | .containerReference _ => .ok (.containerReference arg)
              | .registerReference _ => .ok (.registerReference arg)
              | .variableReference _ => .ok (.variableReference arg)
              | .instructionReference _ _ =>
                  match findInst insts arg with
                  | some z => .ok (.instructionReference arg z.arguments)
                  | none => .error (.ill (.nonExistentInstruction arg)) :
                Except RunError ExpressionType) with
       | .error e => .error e
       | .ok a =>
           match validateArgs registers iscope insts exps args with
           | .error e => .error e
           | .ok as => .ok (a :: as)) := rfl

/-- Claim C8 (counterexample).  The claim's final clause — any other token is
accepted "with its quote characters stripped" — fails for single-quoted
tokens: the tokenizer's first alternative produces the token `\x27y\x27`
(quotes included), `strip_quotes` removes only double quotes, and the token
is accepted as a string literal still carrying its single quotes. -/
theorem C8_counterexample :
    parse_code [] Instruction.new_default [] "mak \x27y\x27 3" =
      .ok ⟨"mak", [.stringLiteral "\x27y\x27", .probableLiteral (.inl 3)]⟩ ∧
    ("\x27y\x27" : String) ≠ "y" := by
  refine ⟨rfl, by decide⟩

/-- Claim C8 (amended).  Wherever the catalog expects a string literal,
validation of the raw token proceeds in this order: a token that names an
existing container (global register or scope variable) fails with
`UnescapedStringLiteralIsContainer` (even when it also contains digits, as
the "r1" conjunct shows); otherwise a token containing any digit fails with
`OpCodeInvalidArgument`; any other token is accepted with its DOUBLE-quote
characters stripped — single-quote characters, as in the tokenizer's
`\x27...\x27` alternative, are retained (final conjunct).  Shown for `mak`'s
first and `gt`'s third operand position, over arbitrary register tables and
parsing instruction. -/
theorem C8_string_literal_validation (registers : List Register) (inst : Instruction) :
    (isContainer registers inst.scope "foo" = true →
      parse_code registers inst [] "mak foo 1" =
        .error (.ill (.unescapedStringLiteralIsContainer "foo"))) ∧
    (isContainer registers inst.scope "r1" = true →
      parse_code registers inst [] "mak r1 1" =
        .error (.ill (.unescapedStringLiteralIsContainer "r1"))) ∧
    (isContainer registers inst.scope "fo1o" = false →
      parse_code registers inst [] "mak fo1o 1" =
        .error (.ill (.opCodeInvalidArgument "fo1o"))) ∧
    (isContainer registers inst.scope "\"foo\"" = false →
      parse_code registers inst [] "mak \"foo\" 1" =
        .ok ⟨"mak", [.stringLiteral "foo", .probableLiteral (.inl 1)]⟩) ∧
    (isContainer registers inst.scope "g" = true →
      parse_code registers inst [] "gt 1 2 g" =
        .error (.ill (.unescapedStringLiteralIsContainer "g"))) ∧
    (isContainer registers inst.scope "\x27y\x27" = false →
      parse_code registers inst [] "mak \x27y\x27 3" =
        .ok ⟨"mak", [.stringLiteral "\x27y\x27", .probableLiteral (.inl 3)]⟩) := by
  refine ⟨?_, ?_, ?_, ?_, ?_, ?_⟩
  · intro h
    have h0 : parse_code registers inst [] "mak foo 1" =
        (match validateArgs registers inst.scope [] [s_literal, prob_literal]
            ["foo", "1"] with
         | .error e => .error e
         | .ok act => .ok ⟨"mak", act⟩) := rfl
    rw [h0, validateArgs_cons]
    simp [h, s_literal]
  · intro h
    have h0 : parse_code registers inst [] "mak r1 1" =
        (match validateArgs registers inst.scope [] [s_literal, prob_literal]
            ["r1", "1"] with
         | .error e => .error e
         | .ok act => .ok ⟨"mak", act⟩) := rfl
    rw [h0, validateArgs_cons]
    simp [h, s_literal]
  · intro h
    have h0 : parse_code registers inst [] "mak fo1o 1" =
        (match validateArgs registers inst.scope [] [s_literal, prob_literal]
            ["fo1o", "1"] with
         | .error e => .error e
         | .ok act => .ok ⟨"mak", act⟩) := rfl
    rw [h0, validateArgs_cons]
    simp [h, s_literal]
  · intro h
    have h0 : parse_code registers inst [] "mak \"foo\" 1" =
        (match validateArgs registers inst.scope [] [s_literal, prob_literal]
            ["\"foo\"", "1"] with
         | .error e => .error e
         | .ok act => .ok ⟨"mak", act⟩) := rfl
    rw [h0, validateArgs_cons]
    simp [h, s_literal]
    rfl
  · intro h
    have h0 : parse_code registers inst [] "gt 1 2 g" =
        (match validateArgs registers inst.scope []
            [prob_literal, prob_literal, s_literal] ["1", "2", "g"] with
         | .error e => .error e
         | .ok act => .ok ⟨"gt", act⟩) := rfl
    rw [h0]
    rw [validateArgs_cons, validateArgs_cons, validateArgs_cons]
    simp [h, s_literal, prob_literal]
    rfl
  · intro h
    have h0 : parse_code registers inst [] "mak \x27y\x27 3" =
        (match validateArgs registers inst.scope [] [s_literal, prob_literal]
            ["\x27y\x27", "3"] with
         | .error e => .error e
         | .ok act => .ok ⟨"mak", act⟩) := rfl
    rw [h0, validateArgs_cons]
    simp [h, s_literal]
    rfl

/-- Claim C8: witness discharging the amended validation theorem's hypotheses
at a concrete register table holding `foo`, `r1` and `g`. -/
theorem C8_string_literal_validation_witness :
    parse_code [⟨"foo", 0, false⟩, ⟨"r1", 0, false⟩, ⟨"g", 9, false⟩]
        Instruction.new_default [] "mak foo 1" =
      .error (.ill (.unescapedStringLiteralIsContainer "foo")) ∧
    parse_code [⟨"foo", 0, false⟩, ⟨"r1", 0, false⟩, ⟨"g", 9, false⟩]
        Instruction.new_default [] "mak r1 1" =
      .error (.ill (.unescapedStringLiteralIsContainer "r1")) ∧
    parse_code [⟨"foo", 0, false⟩, ⟨"r1", 0, false⟩, ⟨"g", 9, false⟩]
        Instruction.new_default [] "mak fo1o 1" =
      .error (.ill (.opCodeInvalidArgument "fo1o")) ∧
    parse_code [⟨"foo", 0, false⟩, ⟨"r1", 0, false⟩, ⟨"g", 9, false⟩]
        Instruction.new_default [] "mak \"foo\" 1" =
      .ok ⟨"mak", [.stringLiteral "foo", .probableLiteral (.inl 1)]⟩ ∧
    parse_code [⟨"foo", 0, false⟩, ⟨"r1", 0, false⟩, ⟨"g", 9, false⟩]
        Instruction.new_default [] "gt 1 2 g" =
      .error (.ill (.unescapedStringLiteralIsContainer "g")) ∧
    parse_code [⟨"foo", 0, false⟩, ⟨"r1", 0, false⟩, ⟨"g", 9, false⟩]
        Instruction.new_default [] "mak \x27y\x27 3" =
      .ok ⟨"mak", [.stringLiteral "\x27y\x27", .probableLiteral (.inl 3)]⟩ := by
  have h := C8_string_literal_validation
    [⟨"foo", 0, false⟩, ⟨"r1", 0, false⟩, ⟨"g", 9, false⟩] Instruction.new_default
  exact ⟨h.1 (by decide), h.2.1 (by decide), h.2.2.1 (by decide),
    h.2.2.2.1 (by decide), h.2.2.2.2.1 (by decide), h.2.2.2.2.2 (by decide)⟩

/-- Claim C9 (confirmed).  The boolean sentinels are TRUE = 0 and FALSE = 1;
every comparison binds 0 exactly when its relation holds (1 otherwise); `neg`
maps the value 0 to 1 and EVERY other value (not only 1) to 0; and `if` takes
the then-branch exactly when the condition's final `res` equals 0 (shown for
res = 0, 1 and 2 — the branch prints "T"/"F").  (In this embedding the f64
sentinels are the corresponding integers.) -/
theorem C9_boolean_sentinels :
    TRUE = 0 ∧ FALSE = 1 ∧
    (∀ (v : Value) (fuel : Nat), v ≠ 0 →
      run [] (fuel + 1) (.opc ⟨"neg", [.containerReference "x"]⟩)
          ⟨[⟨"x", v, false⟩], [], []⟩ =
        (.ok 0, ⟨[⟨"x", 0, false⟩], [], []⟩)) ∧
    (run [] 5 (.opc ⟨"neg", [.containerReference "x"]⟩) ⟨[⟨"x", 0, false⟩], [], []⟩ =
      (.ok 0, ⟨[⟨"x", 1, false⟩], [], []⟩)) ∧
    (run [] 5 (.opc ⟨"gt", [.probableLiteral (.inl 5), .probableLiteral (.inl 3),
        .stringLiteral "r"]⟩) ⟨[], [resRegister], []⟩ =
      (.ok 0, ⟨[], [resRegister, ⟨"r", 0, true⟩], []⟩)) ∧
    (run [] 5 (.opc ⟨"gt", [.probableLiteral (.inl 3), .probableLiteral (.inl 5),
        .stringLiteral "r"]⟩) ⟨[], [resRegister], []⟩ =
      (.ok 0, ⟨[], [resRegister, ⟨"r", 1, true⟩], []⟩)) ∧
    (run [] 5 (.opc ⟨"eq", [.probableLiteral (.inl 2), .probableLiteral (.inl 2),
        .stringLiteral "r"]⟩) ⟨[], [resRegister], []⟩ =
      (.ok 0, ⟨[], [resRegister, ⟨"r", 0, true⟩], []⟩)) ∧
    (run [⟨"c", [], [resRegister], [], false⟩,
          ⟨"a", [⟨"pt", [.stringLiteral "T"]⟩], [resRegister], [], false⟩,
          ⟨"b", [⟨"pt", [.stringLiteral "F"]⟩], [resRegister], [], false⟩] 9
        (.opc ⟨"if", [.instructionReference "c" [], .instructionReference "a" [],
          .instructionReference "b" []]⟩) ⟨[], [⟨"res", 0, true⟩], []⟩ =
      (.ok 0, ⟨[], [⟨"res", 0, true⟩], [.outStr "T" false]⟩)) ∧
    (run [⟨"c", [], [resRegister], [], false⟩,
          ⟨"a", [⟨"pt", [.stringLiteral "T"]⟩], [resRegister], [], false⟩,
          ⟨"b", [⟨"pt", [.stringLiteral "F"]⟩], [resRegister], [], false⟩] 9
        (.opc ⟨"if", [.instructionReference "c" [], .instructionReference "a" [],
          .instructionReference "b" []]⟩) ⟨[], [⟨"res", 1, true⟩], []⟩ =
      (.ok 0, ⟨[], [⟨"res", 1, true⟩], [.outStr "F" false]⟩)) ∧
    (run [⟨"c", [], [resRegister], [], false⟩,
          ⟨"a", [⟨"pt", [.stringLiteral "T"]⟩], [resRegister], [], false⟩,
          ⟨"b", [⟨"pt", [.stringLiteral "F"]⟩], [resRegister], [], false⟩] 9
        (.opc ⟨"if", [.instructionReference "c" [], .instructionReference "a" [],
          .instructionReference "b" []]⟩) ⟨[], [⟨"res", 2, true⟩], []⟩ =
      (.ok 0, ⟨[], [⟨"res", 2, true⟩], [.outStr "F" false]⟩)) := by
  refine ⟨rfl, rfl, ?_, by decide, by decide, by decide, by decide,
    by decide, by decide, by decide⟩
  intro v fuel hv
  have h0 : run [] (fuel + 1) (.opc ⟨"neg", [.containerReference "x"]⟩)
      ⟨[⟨"x", v, false⟩], [], []⟩ =
      (.ok 0, ⟨[⟨"x", if v = TRUE then FALSE else TRUE, false⟩], [], []⟩) := rfl
  have hv' : ¬(v = TRUE) := hv
  rw [h0, if_neg hv']
  rfl

/-- Claim C9: witness for the `neg` conjunct, applied at the non-boolean
value 7. -/
theorem C9_boolean_sentinels_witness :
    run [] 1 (.opc ⟨"neg", [.containerReference "x"]⟩) ⟨[⟨"x", 7, false⟩], [], []⟩ =
      (.ok 0, ⟨[⟨"x", 0, false⟩], [], []⟩) :=
  C9_boolean_sentinels.2.2.1 7 0 (by decide)

/-- Claim C10 (confirmed).  `del` places no restriction on deleting the
implicit `res` variable: `del res;` removes it from the local scope; after
that, a `c_execute` over the same scope reaches its final lookup of `res`
with no matching register and the unwrap panics instead of returning a
structured error — shown directly for `c_execute`, and propagating out of a
for-loop body, a dor target and an if condition. -/
theorem C10_del_res_panic :
    (run [] 5 (.opc ⟨"del", [.variableReference "res"]⟩) ⟨[], [resRegister], []⟩) =
      (.ok 0, ⟨[], [], []⟩) ∧
    (run [] 9 (.call ⟨"f", [⟨"del", [.variableReference "res"]⟩], [], [], false⟩)
        ⟨[], [resRegister], []⟩) = (.err (.panicked "res missing"), ⟨[], [], []⟩) ∧
    (run [⟨"body", [⟨"del", [.variableReference "res"]⟩], [resRegister], [], false⟩] 20
        (.opc ⟨"for", [.stringLiteral "i", .integerLiteral 1, .integerLiteral 3,
          .integerLiteral 1, .instructionReference "body" []]⟩)
        ⟨[], [resRegister], []⟩).1 = .err (.panicked "res missing") ∧
    (run [⟨"sub", [⟨"del", [.variableReference "res"]⟩], [resRegister], [], false⟩] 20
        (.opc ⟨"dor", [.instructionReference "sub" [], .stringLiteral "out"]⟩)
        ⟨[], [resRegister], []⟩).1 = .err (.panicked "res missing") ∧
    (run [⟨"c", [⟨"del", [.variableReference "res"]⟩], [resRegister], [], false⟩,
          ⟨"a", [], [resRegister], [], false⟩, ⟨"b", [], [resRegister], [], false⟩] 20
        (.opc ⟨"if", [.instructionReference "c" [], .instructionReference "a" [],
          .instructionReference "b" []]⟩)
        ⟨[], [resRegister], []⟩).1 = .err (.panicked "res missing") := by
  refine ⟨by decide, by decide, by decide, by decide, by decide⟩

end Pill
